import Mathlib

/-!
# english-booking: `static/script.js`

A shallow embedding of the page script: the theme toggle (`initThemeToggle`
and its click listener) and the booking modal (`openBookingModal`,
`closeModal`, the `submit` listener of the booking form).

Modelling conventions.

* Element nodes live in a heap (`Page.heap`) and are referred to by their
  index, so that a closure can keep hold of a node after the node left the
  document.  `Page.document` lists the nodes attached to the document, in
  tree order; nesting is not tracked.
* `localStorage` is an association list; reads and writes always succeed.
* Assigning to `value` runs the value sanitization of the element: each
  element carries its `InputKind` (the markup decides it), and `sanitize`
  gives what the setter stores for that kind.
* The outcome of the `fetch` issued by the submit listener is an input, kept
  in `Page.fetchOutcome`; the promise chain is run to completion against it.
* A JavaScript exception is an `Except.error` carrying the page as the
  statements executed before the throw left it.
-/

namespace EnglishBooking

/-- How a promise settles. -/
inductive Settled (α : Type) where
  | fulfilled (value : α)
  | rejected (reason : String)
  deriving Repr, DecidableEq

/-- The part of a fetch `Response` the script looks at. -/
structure Response where
  status : Nat
  /-- What `response.text()` settles to. -/
  text : Settled String
  deriving Repr, DecidableEq

/-- The Fetch API sets `response.ok` exactly for the statuses 200 to 299. -/
def Response.ok (r : Response) : Bool :=
  decide (200 ≤ r.status) && decide (r.status ≤ 299)

/-- The closures the script registers as event listeners. -/
inductive Handler where
  /-- The arrow function of lines 15-20; it captures `finalToggle`. -/
  | themeClick (finalToggle : Nat)
  /-- The function of lines 41-56. -/
  | bookingSubmit
  deriving Repr, DecidableEq

/-- One `addEventListener` registration. -/
structure Listener where
  type : String
  handler : Handler
  deriving Repr, DecidableEq

/-- The kinds of element the `value` setter distinguishes. -/
inductive InputKind where
  /-- A hidden input, or an element whose `value` is an ordinary property. -/
  | verbatim
  /-- An input of type `text`. -/
  | text
  /-- An input of type `date`. -/
  | date
  /-- An input of type `time`. -/
  | time
  deriving Repr, DecidableEq

def isAsciiDigit (c : Char) : Bool :=
  decide (48 ≤ c.toNat) && decide (c.toNat ≤ 57)

/-- The number written by a run of ASCII digits. -/
def digitsValue (cs : List Char) : Nat :=
  cs.foldl (fun n c => 10 * n + (c.toNat - 48)) 0

/-- Cut a list of characters at every occurrence of `sep`. -/
def splitOnChar (sep : Char) : List Char → List (List Char)
  | [] => [[]]
  | c :: cs =>
    if c = sep then [] :: splitOnChar sep cs
    else
      match splitOnChar sep cs with
      | [] => [[c]]
      | w :: ws => (c :: w) :: ws

def isLeapYear (year : Nat) : Bool :=
  decide (year % 400 = 0) || (decide (year % 4 = 0) && decide (year % 100 ≠ 0))

def daysInMonth (month year : Nat) : Nat :=
  if month = 2 then (if isLeapYear year then 29 else 28)
  else if month = 4 ∨ month = 6 ∨ month = 9 ∨ month = 11 then 30
  else 31

/-- Exactly `n` ASCII digits. -/
def isDigits (n : Nat) (cs : List Char) : Bool :=
  decide (cs.length = n) && cs.all isAsciiDigit

/-- A valid date string of HTML: a year of four or more digits that is not
zero, a month and a day of that month, two digits each, separated by `-`. -/
def isValidDateString (s : String) : Bool :=
  match splitOnChar (Char.ofNat 45) s.data with
  | [y, m, d] =>
    decide (4 ≤ y.length) && y.all isAsciiDigit && isDigits 2 m && isDigits 2 d &&
      decide (0 < digitsValue y) &&
      decide (1 ≤ digitsValue m) && decide (digitsValue m ≤ 12) &&
      decide (1 ≤ digitsValue d) &&
      decide (digitsValue d ≤ daysInMonth (digitsValue m) (digitsValue y))
  | _ => false

/-- The seconds part of a valid time string: two digits up to 59, then
possibly a dot and one, two or three digits. -/
def isValidSeconds (cs : List Char) : Bool :=
  match splitOnChar (Char.ofNat 46) cs with
  | [s] => isDigits 2 s && decide (digitsValue s ≤ 59)
  | [s, f] =>
    isDigits 2 s && decide (digitsValue s ≤ 59) && f.all isAsciiDigit &&
      decide (1 ≤ f.length) && decide (f.length ≤ 3)
  | _ => false

/-- A valid time string of HTML: hour and minute, two digits each, separated
by `:`, possibly followed by `:` and seconds. -/
def isValidTimeString (s : String) : Bool :=
  match splitOnChar (Char.ofNat 58) s.data with
  | [h, m] =>
    isDigits 2 h && isDigits 2 m && decide (digitsValue h ≤ 23) && decide (digitsValue m ≤ 59)
  | [h, m, sec] =>
    isDigits 2 h && isDigits 2 m && decide (digitsValue h ≤ 23) && decide (digitsValue m ≤ 59) &&
      isValidSeconds sec
  | _ => false

/-- Remove every LF and CR. -/
def stripNewlines (s : String) : String :=
  String.mk (s.data.filter fun c => c != Char.ofNat 10 && c != Char.ofNat 13)

/-- The value sanitization algorithm of HTML, run by the `value` setter. -/
def sanitize (kind : InputKind) (s : String) : String :=
  match kind with
  | .verbatim => s
  | .text => stripNewlines s
  | .date => if isValidDateString s then s else ""
  | .time => if isValidTimeString s then s else ""

/-- An element node: the attributes and properties the script reads or writes. -/
structure Element where
  id : String
  /-- What the `value` setter of this element does to an assigned string. -/
  kind : InputKind
  textContent : String
  /-- The `value` property (of an input). -/
  value : String
  /-- The `style.display` property. -/
  display : String
  listeners : List Listener
  deriving Repr, DecidableEq

instance : Inhabited Element := ⟨⟨"", .verbatim, "", "", "", []⟩⟩

/-- The assignment `element.value = v`: the setter stores the sanitised string. -/
def Element.setValue (e : Element) (v : String) : Element :=
  { e with value := sanitize e.kind v }

/-- A request handed to `fetch`; `form` is the node `FormData` was built from. -/
structure Request where
  url : String
  method : String
  form : Nat
  deriving Repr, DecidableEq

/-- The browser state the script acts on. -/
structure Page where
  heap : List Element
  document : List Nat
  /-- The `data-theme` attribute of `document.documentElement`. -/
  dataTheme : Option String
  localStorage : List (String × String)
  /-- The functions assigned to properties of `window`, by name. -/
  globals : List String
  /-- The value of `window.location.href`. -/
  href : String
  /-- The messages shown by `alert`, oldest first. -/
  alerts : List String
  requests : List Request
  /-- Whether the event being dispatched had `preventDefault` called. -/
  defaultPrevented : Bool
  /-- How the next `fetch` settles. -/
  fetchOutcome : Settled Response
  deriving Repr, DecidableEq

/-- The exception raised when a property of `null` is read or written. -/
inductive JsError where
  | typeError
  deriving Repr, DecidableEq

/-- An uncaught exception together with the page at the moment of the throw. -/
structure Thrown where
  error : JsError
  page : Page
  deriving Repr, DecidableEq

def sunIcon : String := "☀️"

def moonIcon : String := "🌙"

/-- JavaScript `a || b` for `a` a string or `null`: `null` and `''` are falsy. -/
def jsOr (a : Option String) (b : String) : String :=
  match a with
  | none => b
  | some s => if s = "" then b else s

/-- The first element attached to the document that has the given id. -/
def Page.getElementById (p : Page) (id : String) : Option Nat :=
  p.document.find? fun n =>
    match p.heap[n]? with
    | some e => e.id == id
    | none => false

/-- Update the node `n` in place. -/
def Page.update (p : Page) (n : Nat) (f : Element → Element) : Page :=
  { p with heap := p.heap.modify f n }

/-- Deep copy of node `n`: attributes and content are copied, listeners
registered with `addEventListener` are not.  Returns the new node. -/
def Page.cloneNode (p : Page) (n : Nat) : Nat × Page :=
  let e := (p.heap[n]?).getD default
  (p.heap.length, { p with heap := p.heap ++ [{ e with listeners := [] }] })

/-- Put `newChild` where `oldChild` is in the document. -/
def Page.replaceChild (p : Page) (newChild oldChild : Nat) : Page :=
  { p with document := p.document.map fun n => if n = oldChild then newChild else n }

def Page.getItem (p : Page) (key : String) : Option String :=
  (p.localStorage.find? fun kv => kv.1 == key).map Prod.snd

/-- After `setItem` the store holds exactly one entry for `key`. -/
def Page.setItem (p : Page) (key value : String) : Page :=
  { p with localStorage := (key, value) :: p.localStorage.filter fun kv => kv.1 != key }

def Page.addEventListener (p : Page) (n : Nat) (type : String) (h : Handler) : Page :=
  p.update n fun e => { e with listeners := e.listeners ++ [Listener.mk type h] }

/-- Assign a function to the property `name` of `window`. -/
def Page.assignGlobal (p : Page) (name : String) : Page :=
  { p with globals := name :: p.globals.erase name }

def Page.alert (p : Page) (message : String) : Page :=
  { p with alerts := p.alerts ++ [message] }

/-- Lines 2-21. -/
def initThemeToggle (p : Page) : Except Thrown Page :=
  match p.getElementById "themeToggle" with
  | none => .ok p
  | some themeToggle =>
    let (newToggle, p) := p.cloneNode themeToggle
    let p := p.replaceChild newToggle themeToggle
    let finalToggle := p.getElementById "themeToggle"
    let currentTheme := jsOr (p.getItem "theme") "dark"
    let p := { p with dataTheme := some currentTheme }
    match finalToggle with
    | none => .error ⟨.typeError, p⟩
    | some finalToggle =>
      let p := p.update finalToggle fun e =>
        { e with textContent := if currentTheme = "dark" then sunIcon else moonIcon }
      .ok (p.addEventListener finalToggle "click" (.themeClick finalToggle))

/-- Lines 15-20: the click listener, with its captured `finalToggle`. -/
def themeClick (finalToggle : Nat) (p : Page) : Page :=
  let newTheme := if p.dataTheme = some "dark" then "light" else "dark"
  let p := { p with dataTheme := some newTheme }
  let p := p.setItem "theme" newTheme
  p.update finalToggle fun e =>
    { e with textContent := if newTheme = "dark" then sunIcon else moonIcon }

/-- Lines 25-32: the function assigned to `window.openBookingModal`. -/
def openBookingModal (date time : String) (p : Page) : Except Thrown Page :=
  match p.getElementById "modal" with
  | none => .ok p
  | some modal =>
    match p.getElementById "date-input" with
    | none => .error ⟨.typeError, p⟩
    | some dateInput =>
      let p := p.update dateInput fun e => e.setValue date
      match p.getElementById "time-input" with
      | none => .error ⟨.typeError, p⟩
      | some timeInput =>
        let p := p.update timeInput fun e => e.setValue time
        .ok (p.update modal fun e => { e with display := "flex" })

/-- Lines 34-37: the function assigned to `window.closeModal`. -/
def closeModal (p : Page) : Except Thrown Page :=
  match p.getElementById "modal" with
  | none => .ok p
  | some modal => .ok (p.update modal fun e => { e with display := "none" })

/-- Lines 41-56: the submit listener; `this` is the form it is registered on. -/
def bookingSubmit (this : Nat) (p : Page) : Page :=
  let p := { p with defaultPrevented := true }
  let p := { p with requests := p.requests ++ [Request.mk "/book" "POST" this] }
  match p.fetchOutcome with
  | .fulfilled response =>
    if response.ok then { p with href := "/success" }
    else
      match response.text with
      | .fulfilled text => p.alert ("Error: " ++ text)
      | .rejected _ => p
  | .rejected _ => p.alert "Network error"

/-- Lines 24-58. -/
def initBookingModal (p : Page) : Except Thrown Page :=
  let p := p.assignGlobal "openBookingModal"
  let p := p.assignGlobal "closeModal"
  match p.getElementById "bookingForm" with
  | none => .ok p
  | some bookingForm => .ok (p.addEventListener bookingForm "submit" .bookingSubmit)

/-- Lines 61-64: the `DOMContentLoaded` listener. -/
def onDOMContentLoaded (p : Page) : Except Thrown Page :=
  initThemeToggle p >>= initBookingModal

/-- Run one listener on the event target. -/
def Page.runHandler (p : Page) (target : Nat) : Handler → Page
  | .themeClick finalToggle => themeClick finalToggle p
  | .bookingSubmit => bookingSubmit target p

/-- The handlers registered on node `n` for events of the given type, in
registration order. -/
def Page.listenersOn (p : Page) (n : Nat) (type : String) : List Handler :=
  ((((p.heap[n]?).map Element.listeners).getD []).filter fun l => l.type == type).map
    Listener.handler

/-- Dispatch an event of the given type to `target`: the listeners registered
for that type when the dispatch starts run in registration order. -/
def Page.dispatchEvent (p : Page) (type : String) (target : Nat) : Page :=
  (p.listenersOn target type).foldl (fun q h => q.runHandler target h)
    { p with defaultPrevented := false }

/-- The user clicks the theme control that is in the document. -/
def clickThemeToggle (p : Page) : Page :=
  match p.getElementById "themeToggle" with
  | none => p
  | some t => p.dispatchEvent "click" t

/-- The label of the theme control that is in the document. -/
def Page.label (p : Page) : Option String :=
  (p.getElementById "themeToggle").bind fun t => (p.heap[t]?).map Element.textContent

/-- The click listeners of the theme control that is in the document. -/
def themeToggleClickListeners (p : Page) : List Handler :=
  match p.getElementById "themeToggle" with
  | none => []
  | some t => p.listenersOn t "click"

/-- The value `v` of an attribute that holds a theme, flipped as line 16 does. -/
def opposite (v : Option String) : String :=
  if v = some "dark" then "light" else "dark"

/-- The icon line 13 and line 19 show for a theme. -/
def iconFor (theme : String) : String :=
  if theme = "dark" then sunIcon else moonIcon

/-- Run `initThemeToggle` `n` times in a row. -/
def initTimes : Nat → Page → Except Thrown Page
  | 0, p => .ok p
  | n + 1, p => initTimes n p >>= initThemeToggle

/-- Click the theme control `k` times in a row. -/
def clicks : Nat → Page → Page
  | 0, p => p
  | k + 1, p => clickThemeToggle (clicks k p)

/-- A page with a theme control and an empty store. -/
def samplePage : Page :=
  { heap := [⟨"themeToggle", .verbatim, "", "", "", []⟩]
    document := [0]
    dataTheme := none
    localStorage := []
    globals := []
    href := "/"
    alerts := []
    requests := []
    defaultPrevented := false
    fetchOutcome := .rejected "offline" }

/-- A property of the element with the given id, when the document has one. -/
def Page.read {α : Type} (p : Page) (id : String) (g : Element → α) : Option α :=
  (p.getElementById id).bind fun n => (p.heap[n]?).map g

def Page.kindOf (p : Page) (id : String) : Option InputKind :=
  p.read id Element.kind

def Page.valueOf (p : Page) (id : String) : Option String :=
  p.read id Element.value

def Page.displayOf (p : Page) (id : String) : Option String :=
  p.read id Element.display

/-- The user submits the booking form that is in the document. -/
def submitBookingForm (p : Page) : Page :=
  match p.getElementById "bookingForm" with
  | none => p
  | some f => p.dispatchEvent "submit" f

/-- A page with the modal, both inputs and the booking form. -/
def bookingPage : Page :=
  { heap := [⟨"modal", .verbatim, "", "", "none", []⟩, ⟨"bookingForm", .verbatim, "", "", "", []⟩,
      ⟨"date-input", .date, "", "", "", []⟩, ⟨"time-input", .time, "", "", "", []⟩]
    document := [0, 1, 2, 3]
    dataTheme := none
    localStorage := []
    globals := []
    href := "/"
    alerts := []
    requests := []
    defaultPrevented := false
    fetchOutcome := .fulfilled ⟨200, .fulfilled "ok"⟩ }

/-- The page `bookingPage` with both inputs of type `text`. -/
def textBookingPage : Page :=
  { bookingPage with
    heap := [⟨"modal", .verbatim, "", "", "none", []⟩, ⟨"bookingForm", .verbatim, "", "", "", []⟩,
      ⟨"date-input", .text, "", "", "", []⟩, ⟨"time-input", .text, "", "", "", []⟩] }

/-- A page that has the modal but neither input. -/
def modalOnlyPage : Page :=
  { bookingPage with heap := [⟨"modal", .verbatim, "", "", "none", []⟩], document := [0] }

/-- The page `samplePage` with `value` stored under the key `theme`. -/
def storedPage (value : String) : Page :=
  { samplePage with localStorage := [("theme", value)] }

/-- The control is ready: node `t` is the theme control in the document and
its only listener is the click listener that captured `t`. -/
def Armed (p : Page) (t : Nat) : Prop :=
  p.getElementById "themeToggle" = some t ∧
    ∃ e, p.heap[t]? = some e ∧ e.listeners = [Listener.mk "click" (.themeClick t)]

/-! ## Lemmas on the document model -/

theorem getElementById_update (p : Page) (n : Nat) (f : Element → Element) (id : String)
    (hf : ∀ e, (f e).id = e.id) :
    (p.update n f).getElementById id = p.getElementById id := by
  unfold Page.getElementById Page.update
  simp only
  congr 1
  funext m
  rw [List.getElem?_modify]
  cases h : p.heap[m]? with
  | none => simp
  | some e => by_cases hnm : n = m <;> simp [hnm, hf]

theorem getElementById_some {p : Page} {id : String} {n : Nat}
    (h : p.getElementById id = some n) : ∃ e, p.heap[n]? = some e ∧ e.id = id := by
  unfold Page.getElementById at h
  have h2 := List.find?_some h
  cases he : p.heap[n]? with
  | none => simp [he] at h2
  | some e => exact ⟨e, rfl, by simpa [he] using h2⟩

theorem heap_update_same (p : Page) (n : Nat) (f : Element → Element) :
    (p.update n f).heap[n]? = (p.heap[n]?).map f := by
  simp [Page.update]

theorem getItem_setItem (p : Page) (key value : String) :
    (p.setItem key value).getItem key = some value := by
  simp [Page.setItem, Page.getItem]

/-- Replacing the first node that has `id` by a fresh copy of it makes the
copy the node `getElementById` finds. -/
theorem find_after_replace (heap : List Element) (c : Element) (id : String) (t : Nat)
    (hc : c.id = id) (ht : ∃ e, heap[t]? = some e ∧ e.id = id) :
    ∀ doc : List Nat,
      doc.find? (fun n => match heap[n]? with
        | some e => e.id == id
        | none => false) = some t →
      (doc.map fun n => if n = t then heap.length else n).find?
        (fun n => match (heap ++ [c])[n]? with
          | some e => e.id == id
          | none => false) = some heap.length := by
  have hnew : (heap ++ [c])[heap.length]? = some c := by simp
  intro doc
  induction doc with
  | nil => intro h; simp at h
  | cons a tl ih =>
    intro h
    rw [List.find?_cons] at h
    rw [List.map_cons, List.find?_cons]
    by_cases hat : a = t
    · subst hat
      simp [hc]
    · obtain ⟨e, he, hid⟩ := ht
      have hpa : (match heap[a]? with
          | some e => e.id == id
          | none => false) = false := by
        cases hm : (match heap[a]? with
          | some e => e.id == id
          | none => false) with
        | false => rfl
        | true =>
          rw [hm] at h
          simp at h
          exact absurd h hat
      rw [hpa] at h
      simp only [if_neg hat]
      rcases Nat.lt_trichotomy a heap.length with hlt | heq | hgt
      · rw [List.getElem?_append_left hlt, hpa]
        exact ih h
      · subst heq
        simp [hc]
      · have : (heap ++ [c])[a]? = none := by
          apply List.getElem?_eq_none
          simp
          omega
        rw [this]
        exact ih h

/-- What one run of `initThemeToggle` does when the control exists. -/
theorem initThemeToggle_present {p : Page} {t : Nat}
    (h : p.getElementById "themeToggle" = some t) :
    ∃ q, initThemeToggle p = .ok q ∧ Armed q p.heap.length ∧
      q.label = some (iconFor (jsOr (p.getItem "theme") "dark")) ∧
      q.dataTheme = some (jsOr (p.getItem "theme") "dark") ∧
      q.localStorage = p.localStorage := by
  obtain ⟨e, he, hid⟩ := getElementById_some h
  have key := find_after_replace p.heap { e with listeners := [] } "themeToggle" t hid
    ⟨e, he, hid⟩ p.document h
  have key2 : (Page.replaceChild (p.cloneNode t).2 (p.cloneNode t).1 t).getElementById
      "themeToggle" = some p.heap.length := by
    simpa [Page.replaceChild, Page.cloneNode, Page.getElementById, he] using key
  have hrun : initThemeToggle p = .ok
      (Page.addEventListener
        (Page.update
          { Page.replaceChild (p.cloneNode t).2 (p.cloneNode t).1 t with
            dataTheme := some (jsOr (p.getItem "theme") "dark") }
          p.heap.length
          fun e => { e with textContent := iconFor (jsOr (p.getItem "theme") "dark") })
        p.heap.length "click" (.themeClick p.heap.length)) := by
    unfold initThemeToggle
    simp only [h, key2]
    rfl
  have hget : ∀ th : Option String, Page.getElementById
      { Page.replaceChild (p.cloneNode t).2 (p.cloneNode t).1 t with dataTheme := th }
      "themeToggle" = some p.heap.length := fun _ => key2
  refine ⟨_, hrun, ⟨?_, ?_⟩, ?_, ?_, ?_⟩
  · rw [Page.addEventListener, getElementById_update, getElementById_update]
    · exact hget _
    · exact fun _ => rfl
    · exact fun _ => rfl
  · refine ⟨⟨e.id, e.kind, iconFor (jsOr (p.getItem "theme") "dark"), e.value, e.display,
      [Listener.mk "click" (.themeClick p.heap.length)]⟩, ?_, rfl⟩
    simp [Page.addEventListener, Page.update, Page.replaceChild, Page.cloneNode, he]
  · unfold Page.label
    rw [Page.addEventListener, getElementById_update, getElementById_update, hget]
    · simp [Page.update, Page.replaceChild, Page.cloneNode, he]
    · exact fun _ => rfl
    · exact fun _ => rfl
  · rfl
  · rfl

theorem themeClick_armed {p : Page} {t : Nat} (h : Armed p t) : Armed (themeClick t p) t := by
  obtain ⟨hget, e, he, hl⟩ := h
  refine ⟨?_, ⟨{ e with textContent := iconFor (opposite p.dataTheme) }, ?_, hl⟩⟩
  · unfold themeClick
    rw [getElementById_update]
    · exact hget
    · exact fun _ => rfl
  · unfold themeClick
    rw [heap_update_same]
    simp [Page.setItem, he, iconFor, opposite]

theorem themeClick_label {p : Page} {t : Nat} (h : Armed p t) :
    (themeClick t p).label = some (iconFor (opposite p.dataTheme)) := by
  obtain ⟨hget, e, he, _⟩ := h
  unfold Page.label themeClick
  rw [getElementById_update]
  · have : Page.getElementById (Page.setItem
        { p with dataTheme := some (if p.dataTheme = some "dark" then "light" else "dark") }
        "theme" (if p.dataTheme = some "dark" then "light" else "dark")) "themeToggle" = some t :=
      hget
    simp only [this, Option.some_bind, heap_update_same]
    simp [Page.setItem, he, iconFor, opposite]
  · exact fun _ => rfl

/-- One click on a ready control runs the click listener once. -/
theorem clickThemeToggle_armed {p : Page} {t : Nat} (h : Armed p t) :
    clickThemeToggle p = themeClick t { p with defaultPrevented := false } := by
  obtain ⟨hget, e, he, hl⟩ := h
  unfold clickThemeToggle
  simp only [hget]
  simp [Page.dispatchEvent, Page.listenersOn, he, hl, Page.runHandler]

/-- The effect of one click on a ready control. -/
theorem click_effect {p : Page} {t : Nat} (h : Armed p t) :
    Armed (clickThemeToggle p) t ∧
      (clickThemeToggle p).dataTheme = some (opposite p.dataTheme) ∧
      (clickThemeToggle p).getItem "theme" = some (opposite p.dataTheme) ∧
      (clickThemeToggle p).label = some (iconFor (opposite p.dataTheme)) := by
  have h0 : Armed { p with defaultPrevented := false } t := h
  rw [clickThemeToggle_armed h]
  refine ⟨themeClick_armed h0, rfl, ?_, themeClick_label h0⟩
  unfold themeClick
  exact getItem_setItem _ _ _

theorem getItem_congr {p q : Page} (h : q.localStorage = p.localStorage) (key : String) :
    q.getItem key = p.getItem key := by
  unfold Page.getItem
  rw [h]

theorem clicks_armed {p : Page} {t : Nat} (h : Armed p t) : ∀ k, Armed (clicks k p) t
  | 0 => h
  | k + 1 => (click_effect (clicks_armed h k)).1

/-- After one click or more the attribute and the stored entry agree and are
one of the two theme names. -/
theorem clicks_succ_values {p : Page} {t : Nat} (h : Armed p t) (k : Nat) :
    ∃ v, (v = "dark" ∨ v = "light") ∧ (clicks (k + 1) p).dataTheme = some v ∧
      (clicks (k + 1) p).getItem "theme" = some v := by
  obtain ⟨_, h2, h3, _⟩ := click_effect (clicks_armed h k)
  refine ⟨opposite (clicks k p).dataTheme, ?_, h2, h3⟩
  unfold opposite
  split <;> simp

/-- Any positive number of runs of `initThemeToggle` ends like a single run. -/
theorem initTimes_succ {p : Page} {t : Nat} (h : p.getElementById "themeToggle" = some t) :
    ∀ n, ∃ q u, initTimes (n + 1) p = .ok q ∧ Armed q u ∧
      q.label = some (iconFor (jsOr (p.getItem "theme") "dark")) ∧
      q.dataTheme = some (jsOr (p.getItem "theme") "dark") ∧
      q.localStorage = p.localStorage
  | 0 => by
    obtain ⟨q, hq, ha, hl, hd, hs⟩ := initThemeToggle_present h
    exact ⟨q, _, hq, ha, hl, hd, hs⟩
  | n + 1 => by
    obtain ⟨q, u, hq, ha, _, _, hs⟩ := initTimes_succ h n
    obtain ⟨r, hr, hra, hrl, hrd, hrs⟩ := initThemeToggle_present ha.1
    rw [getItem_congr hs] at hrl hrd
    refine ⟨r, _, ?_, hra, hrl, hrd, hrs.trans hs⟩
    show (initTimes (n + 1) p >>= initThemeToggle) = .ok r
    rw [hq]
    exact hr

/-! ## The theme toggle -/

/-- C1 (counterexample): two clicks after `initThemeToggle` do not always give
back the values from before the clicks.  With no stored theme the stored entry
goes from absent to "dark"; with the empty string stored it goes from "" to
"dark"; with "blue" stored the attribute goes from "blue" to "light". -/
theorem two_clicks_do_not_restore :
    (∃ q, initThemeToggle samplePage = .ok q ∧ q.getItem "theme" = none ∧
      (clicks 2 q).getItem "theme" = some "dark" ∧
      (clicks 2 q).getItem "theme" ≠ q.getItem "theme") ∧
    (∃ q, initThemeToggle (storedPage "") = .ok q ∧ q.getItem "theme" = some "" ∧
      (clicks 2 q).getItem "theme" = some "dark" ∧
      (clicks 2 q).getItem "theme" ≠ q.getItem "theme") ∧
    (∃ q, initThemeToggle (storedPage "blue") = .ok q ∧ q.dataTheme = some "blue" ∧
      (clicks 2 q).dataTheme = some "light" ∧
      (clicks 2 q).dataTheme ≠ q.dataTheme) := by
  refine ⟨⟨_, rfl, ?_, ?_, ?_⟩, ⟨_, rfl, ?_, ?_, ?_⟩, ⟨_, rfl, ?_, ?_, ?_⟩⟩ <;> decide

/-- C1 (amended): when the control exists and the theme `initThemeToggle`
applies (the stored entry, or "dark" when it is absent or empty) is "dark" or
"light", two clicks leave the `data-theme` attribute as it was before them and
leave that theme stored; so a stored "dark" or "light" is the same before and
after the two clicks. -/
theorem two_clicks_restore (p : Page) (h : (p.getElementById "themeToggle").isSome)
    (hv : jsOr (p.getItem "theme") "dark" = "dark" ∨
      jsOr (p.getItem "theme") "dark" = "light") :
    ∃ q, initThemeToggle p = .ok q ∧
      (clicks 2 q).dataTheme = q.dataTheme ∧
      (clicks 2 q).getItem "theme" = some (jsOr (p.getItem "theme") "dark") ∧
      ((p.getItem "theme" = some "dark" ∨ p.getItem "theme" = some "light") →
        (clicks 2 q).getItem "theme" = q.getItem "theme") := by
  obtain ⟨t, ht⟩ := Option.isSome_iff_exists.mp h
  obtain ⟨q, hq, ha, _, hd, hs⟩ := initThemeToggle_present ht
  obtain ⟨ha1, hd1, _, _⟩ := click_effect ha
  obtain ⟨_, hd2, hs2, _⟩ := click_effect ha1
  have hback : opposite (some (opposite q.dataTheme)) = jsOr (p.getItem "theme") "dark" := by
    rw [hd]
    rcases hv with hv | hv <;> rw [hv] <;> decide
  have hd2' : (clicks 2 q).dataTheme = some (opposite (some (opposite q.dataTheme))) := by
    rw [← hd1]
    exact hd2
  have hs2' : (clicks 2 q).getItem "theme" = some (opposite (some (opposite q.dataTheme))) := by
    rw [← hd1]
    exact hs2
  refine ⟨q, hq, ?_, ?_, ?_⟩
  · rw [hd2', hback, hd]
  · rw [hs2', hback]
  · intro hst
    rw [hs2', hback, getItem_congr hs]
    rcases hst with hst | hst <;> rw [hst] <;> rfl

theorem two_clicks_restore_witness :
    ∃ q, initThemeToggle (storedPage "light") = .ok q ∧
      (clicks 2 q).dataTheme = q.dataTheme ∧
      (clicks 2 q).getItem "theme" = some (jsOr ((storedPage "light").getItem "theme") "dark") ∧
      (((storedPage "light").getItem "theme" = some "dark" ∨
          (storedPage "light").getItem "theme" = some "light") →
        (clicks 2 q).getItem "theme" = q.getItem "theme") :=
  two_clicks_restore (storedPage "light") (by decide) (by decide)

/-- C2: for every n ≥ 1, n runs of `initThemeToggle` on a page that has the
control succeed and leave the control of the document with exactly one click
listener; one click then flips `data-theme` once, to the opposite of its value
before the click, which is also what the click gives after a single run. -/
theorem reinit_keeps_one_listener (p : Page) (h : (p.getElementById "themeToggle").isSome)
    (n : Nat) (hn : 1 ≤ n) :
    ∃ q, initTimes n p = .ok q ∧
      (themeToggleClickListeners q).length = 1 ∧
      (clickThemeToggle q).dataTheme = some (opposite q.dataTheme) ∧
      ∃ q1, initThemeToggle p = .ok q1 ∧
        q.dataTheme = q1.dataTheme ∧
        (clickThemeToggle q).dataTheme = (clickThemeToggle q1).dataTheme := by
  obtain ⟨t, ht⟩ := Option.isSome_iff_exists.mp h
  obtain ⟨m, rfl⟩ : ∃ m, n = m + 1 := ⟨n - 1, by omega⟩
  obtain ⟨q, u, hq, ha, _, hd, _⟩ := initTimes_succ ht m
  obtain ⟨q1, hq1, ha1, _, hd1, _⟩ := initThemeToggle_present ht
  have hc := (click_effect ha).2.1
  have hc1 := (click_effect ha1).2.1
  refine ⟨q, hq, ?_, hc, q1, hq1, hd.trans hd1.symm, ?_⟩
  · obtain ⟨hget, e, he, hl⟩ := ha
    simp [themeToggleClickListeners, hget, Page.listenersOn, he, hl]
  · rw [hc, hc1, hd, hd1]

theorem reinit_keeps_one_listener_witness :
    ∃ q, initTimes 3 samplePage = .ok q ∧
      (themeToggleClickListeners q).length = 1 ∧
      (clickThemeToggle q).dataTheme = some (opposite q.dataTheme) ∧
      ∃ q1, initThemeToggle samplePage = .ok q1 ∧
        q.dataTheme = q1.dataTheme ∧
        (clickThemeToggle q).dataTheme = (clickThemeToggle q1).dataTheme :=
  reinit_keeps_one_listener samplePage (by decide) 3 (by decide)

/-- C3 (counterexample): with the empty string stored under `theme`,
`initThemeToggle` sets `data-theme` to "dark", not to the stored value. -/
theorem init_empty_store_not_applied :
    (storedPage "").getItem "theme" = some "" ∧
      ∃ q, initThemeToggle (storedPage "") = .ok q ∧ q.dataTheme = some "dark" ∧
        q.dataTheme ≠ (storedPage "").getItem "theme" := by
  refine ⟨by decide, _, rfl, ?_, ?_⟩ <;> decide

/-- C3 (amended): when the control exists, `initThemeToggle` sets `data-theme`
to the stored `theme` value when that is a non-empty string and to "dark" when
nothing or the empty string is stored, and sets the label to the sun icon when
that theme is "dark" and to the moon icon otherwise; with no stored theme the
attribute is "dark" and the label is the sun icon. -/
theorem init_applies_stored_theme (p : Page) (h : (p.getElementById "themeToggle").isSome) :
    ∃ q, initThemeToggle p = .ok q ∧
      (∀ s, p.getItem "theme" = some s → s ≠ "" → q.dataTheme = some s) ∧
      (p.getItem "theme" = none ∨ p.getItem "theme" = some "" → q.dataTheme = some "dark") ∧
      (q.dataTheme = some "dark" → q.label = some sunIcon) ∧
      (q.dataTheme ≠ some "dark" → q.label = some moonIcon) ∧
      (p.getItem "theme" = none → q.dataTheme = some "dark" ∧ q.label = some sunIcon) := by
  obtain ⟨t, ht⟩ := Option.isSome_iff_exists.mp h
  obtain ⟨q, hq, _, hl, hd, _⟩ := initThemeToggle_present ht
  refine ⟨q, hq, ?_, ?_, ?_, ?_, ?_⟩
  · intro s hs hne
    rw [hd, hs]
    simp [jsOr, hne]
  · intro hs
    rw [hd]
    rcases hs with hs | hs <;> rw [hs] <;> rfl
  · intro hdark
    rw [hd] at hdark
    rw [hl, Option.some.inj hdark]
    rfl
  · intro hnd
    rw [hd] at hnd
    rw [hl]
    have : jsOr (p.getItem "theme") "dark" ≠ "dark" := fun hc => hnd (by rw [hc])
    simp [iconFor, this]
  · intro hs
    rw [hd, hl, hs]
    exact ⟨rfl, rfl⟩

theorem init_applies_stored_theme_witness :
    ∃ q, initThemeToggle samplePage = .ok q ∧
      (∀ s, samplePage.getItem "theme" = some s → s ≠ "" → q.dataTheme = some s) ∧
      (samplePage.getItem "theme" = none ∨ samplePage.getItem "theme" = some "" →
        q.dataTheme = some "dark") ∧
      (q.dataTheme = some "dark" → q.label = some sunIcon) ∧
      (q.dataTheme ≠ some "dark" → q.label = some moonIcon) ∧
      (samplePage.getItem "theme" = none → q.dataTheme = some "dark" ∧ q.label = some sunIcon) :=
  init_applies_stored_theme samplePage (by decide)

/-- C9 (counterexample): with "blue" stored under `theme`, the state right
after `initThemeToggle` (no click yet) has `data-theme` "blue" and the stored
entry "blue", neither "dark" nor "light". -/
theorem init_keeps_foreign_theme :
    ∃ q, initThemeToggle (storedPage "blue") = .ok q ∧
      (clicks 0 q).dataTheme = some "blue" ∧ (clicks 0 q).getItem "theme" = some "blue" ∧
      ¬ ((clicks 0 q).dataTheme = some "dark" ∨ (clicks 0 q).dataTheme = some "light") := by
  refine ⟨_, rfl, ?_, ?_, ?_⟩ <;> decide

/-- C9 (amended): in every state reached by `initThemeToggle` (control
present) followed by at least one click, or by no click when the prior stored
entry was absent, "dark" or "light", the `data-theme` attribute is "dark" or
"light" and the stored `theme` entry, when present, is "dark" or "light". -/
theorem theme_values_dark_or_light (p : Page) (h : (p.getElementById "themeToggle").isSome)
    (k : Nat)
    (hk : 1 ≤ k ∨ p.getItem "theme" = none ∨ p.getItem "theme" = some "dark" ∨
      p.getItem "theme" = some "light") :
    ∃ q, initThemeToggle p = .ok q ∧
      ((clicks k q).dataTheme = some "dark" ∨ (clicks k q).dataTheme = some "light") ∧
      ∀ v, (clicks k q).getItem "theme" = some v → v = "dark" ∨ v = "light" := by
  obtain ⟨t, ht⟩ := Option.isSome_iff_exists.mp h
  obtain ⟨q, hq, ha, _, hd, hs⟩ := initThemeToggle_present ht
  refine ⟨q, hq, ?_⟩
  cases k with
  | zero =>
    have hp : p.getItem "theme" = none ∨ p.getItem "theme" = some "dark" ∨
        p.getItem "theme" = some "light" := by
      rcases hk with hk | hk
      · omega
      · exact hk
    show (q.dataTheme = some "dark" ∨ q.dataTheme = some "light") ∧
      ∀ v, q.getItem "theme" = some v → v = "dark" ∨ v = "light"
    rw [hd, getItem_congr hs]
    rcases hp with hp | hp | hp <;> rw [hp] <;> simp [jsOr]
  | succ k =>
    obtain ⟨v, hv, hdv, hsv⟩ := clicks_succ_values ha k
    rw [hdv, hsv]
    refine ⟨?_, ?_⟩
    · rcases hv with hv | hv <;> simp [hv]
    · intro w hw
      rw [← Option.some.inj hw]
      exact hv

theorem theme_values_dark_or_light_witness :
    ∃ q, initThemeToggle (storedPage "blue") = .ok q ∧
      ((clicks 3 q).dataTheme = some "dark" ∨ (clicks 3 q).dataTheme = some "light") ∧
      ∀ v, (clicks 3 q).getItem "theme" = some v → v = "dark" ∨ v = "light" :=
  theme_values_dark_or_light (storedPage "blue") (by decide) 3 (Or.inl (by decide))

/-- C10: after `initThemeToggle` on a page that has the control, and after any
number of earlier clicks, one click sets `data-theme` to the opposite of its
current value ("light" if it was "dark", otherwise "dark"), stores that same
value under `theme`, and sets the label to the sun icon when the new value is
"dark" and to the moon icon when it is "light"; so after the click the stored
value equals the attribute. -/
theorem click_flips_persists_mirrors (p : Page)
    (h : (p.getElementById "themeToggle").isSome) (k : Nat) :
    ∃ q, initThemeToggle p = .ok q ∧
      (clicks (k + 1) q).dataTheme = some (opposite (clicks k q).dataTheme) ∧
      (clicks (k + 1) q).getItem "theme" = some (opposite (clicks k q).dataTheme) ∧
      (clicks (k + 1) q).getItem "theme" = (clicks (k + 1) q).dataTheme ∧
      (opposite (clicks k q).dataTheme = "dark" → (clicks (k + 1) q).label = some sunIcon) ∧
      (opposite (clicks k q).dataTheme = "light" → (clicks (k + 1) q).label = some moonIcon) ∧
      (opposite (clicks k q).dataTheme = "dark" ∨ opposite (clicks k q).dataTheme = "light") := by
  obtain ⟨t, ht⟩ := Option.isSome_iff_exists.mp h
  obtain ⟨q, hq, ha, _, _, _⟩ := initThemeToggle_present ht
  obtain ⟨_, hd, hs, hl⟩ := click_effect (clicks_armed ha k)
  refine ⟨q, hq, hd, hs, hs.trans hd.symm, ?_, ?_, ?_⟩
  · intro hv
    show (clickThemeToggle (clicks k q)).label = some sunIcon
    rw [hl, hv]
    rfl
  · intro hv
    show (clickThemeToggle (clicks k q)).label = some moonIcon
    rw [hl, hv]
    rfl
  · unfold opposite
    split <;> simp

theorem click_flips_persists_mirrors_witness :
    ∃ q, initThemeToggle samplePage = .ok q ∧
      (clicks (0 + 1) q).dataTheme = some (opposite (clicks 0 q).dataTheme) ∧
      (clicks (0 + 1) q).getItem "theme" = some (opposite (clicks 0 q).dataTheme) ∧
      (clicks (0 + 1) q).getItem "theme" = (clicks (0 + 1) q).dataTheme ∧
      (opposite (clicks 0 q).dataTheme = "dark" → (clicks (0 + 1) q).label = some sunIcon) ∧
      (opposite (clicks 0 q).dataTheme = "light" → (clicks (0 + 1) q).label = some moonIcon) ∧
      (opposite (clicks 0 q).dataTheme = "dark" ∨ opposite (clicks 0 q).dataTheme = "light") :=
  click_flips_persists_mirrors samplePage (by decide) 0

/-! ## The booking modal -/

/-- Elements found under different ids are different nodes. -/
theorem getElementById_ne {p : Page} {a b : String} {n m : Nat}
    (ha : p.getElementById a = some n) (hb : p.getElementById b = some m) (hab : a ≠ b) :
    n ≠ m := by
  obtain ⟨e, he, hid⟩ := getElementById_some ha
  obtain ⟨e2, he2, hid2⟩ := getElementById_some hb
  intro hnm
  subst hnm
  rw [he] at he2
  cases he2
  exact hab (hid.symm.trans hid2)

theorem sanitize_text_of_no_newline (s : String)
    (h : ∀ c ∈ s.data, c ≠ Char.ofNat 10 ∧ c ≠ Char.ofNat 13) : sanitize .text s = s := by
  have hf : s.data.filter (fun c => c != Char.ofNat 10 && c != Char.ofNat 13) = s.data := by
    rw [List.filter_eq_self]
    intro c hc
    simp [h c hc]
  show String.mk (s.data.filter fun c => c != Char.ofNat 10 && c != Char.ofNat 13) = s
  rw [hf]

theorem sanitize_date_of_valid (s : String) (h : isValidDateString s = true) :
    sanitize .date s = s := by
  simp [sanitize, h]

theorem sanitize_time_of_valid (s : String) (h : isValidTimeString s = true) :
    sanitize .time s = s := by
  simp [sanitize, h]

/-- The example of the specification: on date and time fields, and on text
fields, the two strings are stored as given. -/
theorem open_example :
    (∃ q, openBookingModal "2024-01-01" "10:00" bookingPage = .ok q ∧
      q.valueOf "date-input" = some "2024-01-01" ∧ q.valueOf "time-input" = some "10:00" ∧
      q.displayOf "modal" = some "flex") ∧
    (∃ q, openBookingModal "2024-01-01" "10:00" textBookingPage = .ok q ∧
      q.valueOf "date-input" = some "2024-01-01" ∧ q.valueOf "time-input" = some "10:00" ∧
      q.displayOf "modal" = some "flex") := by
  refine ⟨⟨_, rfl, ?_, ?_, ?_⟩, ⟨_, rfl, ?_, ?_, ?_⟩⟩ <;> decide

/-- C5 (counterexample): the value of an input is not always the string that
`openBookingModal` assigns.  On text fields "2024-01-01" followed by a line
feed is stored without the line feed; on a date field and a time field
"tomorrow" and "noon" are both stored as the empty string. -/
theorem open_does_not_store_verbatim :
    ((textBookingPage.getElementById "modal").isSome ∧
      (textBookingPage.getElementById "date-input").isSome ∧
      (textBookingPage.getElementById "time-input").isSome ∧
      ∃ q, openBookingModal "2024-01-01\n" "10:00" textBookingPage = .ok q ∧
        q.valueOf "date-input" = some "2024-01-01" ∧
        q.valueOf "date-input" ≠ some "2024-01-01\n") ∧
    ((bookingPage.getElementById "modal").isSome ∧
      (bookingPage.getElementById "date-input").isSome ∧
      (bookingPage.getElementById "time-input").isSome ∧
      ∃ q, openBookingModal "tomorrow" "noon" bookingPage = .ok q ∧
        q.valueOf "date-input" = some "" ∧ q.valueOf "date-input" ≠ some "tomorrow" ∧
        q.valueOf "time-input" = some "" ∧ q.valueOf "time-input" ≠ some "noon") := by
  refine ⟨⟨?_, ?_, ?_, _, rfl, ?_, ?_⟩, ⟨?_, ?_, ?_, _, rfl, ?_, ?_, ?_, ?_⟩⟩ <;> decide

/-- C5 (amended): on a page that has the modal and both inputs,
`openBookingModal date time` succeeds and leaves the value of `date-input`
equal to `date` as sanitised by the setter of that field, the value of
`time-input` equal to `time` as sanitised by the setter of that field, and the
display of the modal "flex"; the values are `date` and `time` themselves
whenever sanitising leaves them unchanged.  A following `closeModal`
succeeds, makes the display "none" and keeps both values as they were set. -/
theorem open_then_close_sanitized (date time : String) (p : Page)
    (hm : (p.getElementById "modal").isSome)
    (hd : (p.getElementById "date-input").isSome)
    (ht : (p.getElementById "time-input").isSome) :
    ∃ kd kt, p.kindOf "date-input" = some kd ∧ p.kindOf "time-input" = some kt ∧
      ∃ q, openBookingModal date time p = .ok q ∧
        q.valueOf "date-input" = some (sanitize kd date) ∧
        q.valueOf "time-input" = some (sanitize kt time) ∧
        q.displayOf "modal" = some "flex" ∧
        (sanitize kd date = date → q.valueOf "date-input" = some date) ∧
        (sanitize kt time = time → q.valueOf "time-input" = some time) ∧
        ∃ r, closeModal q = .ok r ∧ r.displayOf "modal" = some "none" ∧
          r.valueOf "date-input" = some (sanitize kd date) ∧
          r.valueOf "time-input" = some (sanitize kt time) := by
  obtain ⟨m, hm⟩ := Option.isSome_iff_exists.mp hm
  obtain ⟨d, hd⟩ := Option.isSome_iff_exists.mp hd
  obtain ⟨t, ht⟩ := Option.isSome_iff_exists.mp ht
  have hmd : m ≠ d := getElementById_ne hm hd (by decide)
  have hmt : m ≠ t := getElementById_ne hm ht (by decide)
  have hdt : d ≠ t := getElementById_ne hd ht (by decide)
  obtain ⟨em, hem, _⟩ := getElementById_some hm
  obtain ⟨ed, hed, _⟩ := getElementById_some hd
  obtain ⟨et, het, _⟩ := getElementById_some ht
  have hopen : openBookingModal date time p = .ok
      (((p.update d fun e => e.setValue date).update t
        fun e => e.setValue time).update m fun e => { e with display := "flex" }) := by
    unfold openBookingModal
    simp only [hm, hd]
    rw [getElementById_update, ht]
    exact fun _ => rfl
  have hvd : Page.valueOf (((p.update d fun e => e.setValue date).update t
      fun e => e.setValue time).update m fun e => { e with display := "flex" })
      "date-input" = some (sanitize ed.kind date) := by
    unfold Page.valueOf Page.read
    rw [getElementById_update, getElementById_update, getElementById_update, hd]
    · simp [Page.update, hed, hmd, hdt.symm, Element.setValue]
    all_goals exact fun _ => rfl
  have hvt : Page.valueOf (((p.update d fun e => e.setValue date).update t
      fun e => e.setValue time).update m fun e => { e with display := "flex" })
      "time-input" = some (sanitize et.kind time) := by
    unfold Page.valueOf Page.read
    rw [getElementById_update, getElementById_update, getElementById_update, ht]
    · simp [Page.update, het, hmt, hdt, Element.setValue]
    all_goals exact fun _ => rfl
  refine ⟨ed.kind, et.kind, ?_, ?_, _, hopen, hvd, hvt, ?_, ?_, ?_, ?_⟩
  · unfold Page.kindOf Page.read
    rw [hd]
    simp [hed]
  · unfold Page.kindOf Page.read
    rw [ht]
    simp [het]
  · unfold Page.displayOf Page.read
    rw [getElementById_update, getElementById_update, getElementById_update, hm]
    · simp [Page.update, hem, hmd.symm, hmt.symm]
    all_goals exact fun _ => rfl
  · intro hfix
    rw [hvd, hfix]
  · intro hfix
    rw [hvt, hfix]
  · have hm2 : Page.getElementById
        (((p.update d fun e => e.setValue date).update t
          fun e => e.setValue time).update m fun e => { e with display := "flex" })
        "modal" = some m := by
      rw [getElementById_update, getElementById_update, getElementById_update, hm]
      all_goals exact fun _ => rfl
    have hclose : closeModal
        (((p.update d fun e => e.setValue date).update t
          fun e => e.setValue time).update m fun e => { e with display := "flex" }) =
        .ok ((((p.update d fun e => e.setValue date).update t
          fun e => e.setValue time).update m
          fun e => { e with display := "flex" }).update m
          fun e => { e with display := "none" }) := by
      unfold closeModal
      simp only [hm2]
    refine ⟨_, hclose, ?_, ?_, ?_⟩
    · unfold Page.displayOf Page.read
      rw [getElementById_update, getElementById_update, getElementById_update,
        getElementById_update, hm]
      · simp [Page.update, hem, hmd.symm, hmt.symm]
      all_goals exact fun _ => rfl
    · unfold Page.valueOf Page.read
      rw [getElementById_update, getElementById_update, getElementById_update,
        getElementById_update, hd]
      · simp [Page.update, hed, hmd, hdt.symm, Element.setValue]
      all_goals exact fun _ => rfl
    · unfold Page.valueOf Page.read
      rw [getElementById_update, getElementById_update, getElementById_update,
        getElementById_update, ht]
      · simp [Page.update, het, hmt, hdt, Element.setValue]
      all_goals exact fun _ => rfl

theorem open_then_close_sanitized_witness :
    ∃ kd kt, bookingPage.kindOf "date-input" = some kd ∧
      bookingPage.kindOf "time-input" = some kt ∧
      ∃ q, openBookingModal "2024-01-01" "10:00" bookingPage = .ok q ∧
        q.valueOf "date-input" = some (sanitize kd "2024-01-01") ∧
        q.valueOf "time-input" = some (sanitize kt "10:00") ∧
        q.displayOf "modal" = some "flex" ∧
        (sanitize kd "2024-01-01" = "2024-01-01" → q.valueOf "date-input" = some "2024-01-01") ∧
        (sanitize kt "10:00" = "10:00" → q.valueOf "time-input" = some "10:00") ∧
        ∃ r, closeModal q = .ok r ∧ r.displayOf "modal" = some "none" ∧
          r.valueOf "date-input" = some (sanitize kd "2024-01-01") ∧
          r.valueOf "time-input" = some (sanitize kt "10:00") :=
  open_then_close_sanitized "2024-01-01" "10:00" bookingPage (by decide) (by decide) (by decide)

/-- The call `openBookingModal date time` throws exactly when the modal exists and one of the two
inputs does not. -/
theorem openBookingModal_throws_iff (date time : String) (p : Page) :
    (∃ t, openBookingModal date time p = .error t) ↔
      (p.getElementById "modal").isSome ∧
        (p.getElementById "date-input" = none ∨ p.getElementById "time-input" = none) := by
  unfold openBookingModal
  cases hm : p.getElementById "modal" with
  | none => simp
  | some m =>
    cases hd : p.getElementById "date-input" with
    | none => simp
    | some d =>
      have hupd : (p.update d fun e => e.setValue date).getElementById "time-input" =
          p.getElementById "time-input" := getElementById_update _ _ _ _ (fun _ => rfl)
      simp only [hupd]
      cases ht : p.getElementById "time-input" with
      | none => simp
      | some t => simp

/-- C4 (failing input): on a page that has the modal but no `date-input`,
after `initBookingModal`, the call `openBookingModal "2024-01-01" "10:00"`
ends in a TypeError (line 28 writes `value` on `null`); `initThemeToggle`,
`initBookingModal` and `closeModal` return normally on every page. -/
theorem openBookingModal_throws_without_inputs :
    ((modalOnlyPage.getElementById "modal").isSome ∧
      modalOnlyPage.getElementById "date-input" = none ∧
      ∃ q, initBookingModal modalOnlyPage = .ok q ∧
        ∃ t, openBookingModal "2024-01-01" "10:00" q = .error t ∧ t.error = .typeError) ∧
    (∀ p, ∃ q, initThemeToggle p = .ok q) ∧
    (∀ p, ∃ q, initBookingModal p = .ok q) ∧
    (∀ p, ∃ q, closeModal p = .ok q) := by
  refine ⟨⟨by decide, by decide, _, rfl, _, rfl, rfl⟩, ?_, ?_, ?_⟩
  · intro p
    cases h : p.getElementById "themeToggle" with
    | none => exact ⟨p, by unfold initThemeToggle; simp only [h]⟩
    | some t =>
      obtain ⟨q, hq, _⟩ := initThemeToggle_present h
      exact ⟨q, hq⟩
  · intro p
    unfold initBookingModal
    simp only []
    split <;> exact ⟨_, rfl⟩
  · intro p
    unfold closeModal
    split <;> exact ⟨_, rfl⟩

/-- C6: when the booking request is answered with a status from 200 to 299,
whatever the body, the submit listener sets `window.location.href` to
"/success" and shows no alert. -/
theorem submit_success_navigates (this : Nat) (p : Page) (r : Response)
    (hf : p.fetchOutcome = .fulfilled r) (h200 : 200 ≤ r.status) (h299 : r.status ≤ 299) :
    (bookingSubmit this p).href = "/success" ∧ (bookingSubmit this p).alerts = p.alerts := by
  have hok : r.ok = true := by simp [Response.ok, h200, h299]
  unfold bookingSubmit
  simp [hf, hok]

theorem submit_success_navigates_witness :
    (bookingSubmit 1 bookingPage).href = "/success" ∧
      (bookingSubmit 1 bookingPage).alerts = bookingPage.alerts :=
  submit_success_navigates 1 bookingPage ⟨200, .fulfilled "ok"⟩ rfl (by decide) (by decide)

/-- C7: when the booking request is answered with a status outside 200 to 299
and the body text `t`, the submit listener shows exactly one alert, with the
message "Error: " followed by `t`, and leaves `window.location.href` alone;
for status 400 and body "slot taken" the alert is "Error: slot taken". -/
theorem submit_failure_alerts (this : Nat) (p : Page) (r : Response) (t : String)
    (hf : p.fetchOutcome = .fulfilled r) (hs : ¬ (200 ≤ r.status ∧ r.status ≤ 299))
    (ht : r.text = .fulfilled t) :
    (bookingSubmit this p).alerts = p.alerts ++ ["Error: " ++ t] ∧
      (bookingSubmit this p).href = p.href ∧
      (r.status = 400 → t = "slot taken" →
        (bookingSubmit this p).alerts = p.alerts ++ ["Error: slot taken"]) := by
  have hok : r.ok = false := by
    simp only [Response.ok, Bool.and_eq_false_iff, decide_eq_false_iff_not]
    by_cases h : 200 ≤ r.status
    · exact Or.inr fun h2 => hs ⟨h, h2⟩
    · exact Or.inl h
  have ha : (bookingSubmit this p).alerts = p.alerts ++ ["Error: " ++ t] := by
    unfold bookingSubmit
    simp [hf, hok, ht, Page.alert]
  refine ⟨ha, ?_, ?_⟩
  · unfold bookingSubmit
    simp [hf, hok, ht, Page.alert]
  · intro _ htext
    rw [ha, htext]
    rfl

theorem submit_failure_alerts_witness :
    (bookingSubmit 1 { bookingPage with fetchOutcome := .fulfilled ⟨400, .fulfilled "slot taken"⟩ }).alerts
        = bookingPage.alerts ++ ["Error: " ++ "slot taken"] ∧
      (bookingSubmit 1
          { bookingPage with fetchOutcome := .fulfilled ⟨400, .fulfilled "slot taken"⟩ }).href
        = bookingPage.href ∧
      ((400 : Nat) = 400 → "slot taken" = "slot taken" →
        (bookingSubmit 1
            { bookingPage with fetchOutcome := .fulfilled ⟨400, .fulfilled "slot taken"⟩ }).alerts
          = bookingPage.alerts ++ ["Error: slot taken"]) :=
  submit_failure_alerts 1
    { bookingPage with fetchOutcome := .fulfilled ⟨400, .fulfilled "slot taken"⟩ }
    ⟨400, .fulfilled "slot taken"⟩ "slot taken" rfl (by decide) rfl

/-- C8: when the booking request rejects, whatever the reason, the submit
listener shows the alert "Network error" and leaves `window.location.href`
alone. -/
theorem submit_rejection_alerts (this : Nat) (p : Page) (reason : String)
    (hf : p.fetchOutcome = .rejected reason) :
    (bookingSubmit this p).alerts = p.alerts ++ ["Network error"] ∧
      (bookingSubmit this p).href = p.href := by
  unfold bookingSubmit
  simp [hf, Page.alert]

theorem submit_rejection_alerts_witness :
    (bookingSubmit 0 samplePage).alerts = samplePage.alerts ++ ["Network error"] ∧
      (bookingSubmit 0 samplePage).href = samplePage.href :=
  submit_rejection_alerts 0 samplePage "offline" rfl

/-- On a page whose booking form has no submit listener yet, `initBookingModal`
registers `bookingSubmit`, so that submitting the form runs it once with the
form as `this`. -/
theorem submit_runs_bookingSubmit {p : Page} {f : Nat}
    (h : p.getElementById "bookingForm" = some f) (hl : p.listenersOn f "submit" = []) :
    ∃ q, initBookingModal p = .ok q ∧
      submitBookingForm q = bookingSubmit f { q with defaultPrevented := false } := by
  obtain ⟨e, he, _⟩ := getElementById_some h
  have hfilter : List.filter (fun l => l.type == "submit") e.listeners = [] := by
    simpa [Page.listenersOn, he] using hl
  have h2 : ((p.assignGlobal "openBookingModal").assignGlobal "closeModal").getElementById
      "bookingForm" = some f := h
  have hrun : initBookingModal p = .ok
      (((p.assignGlobal "openBookingModal").assignGlobal "closeModal").addEventListener
        f "submit" .bookingSubmit) := by
    unfold initBookingModal
    simp only [h2]
  refine ⟨_, hrun, ?_⟩
  unfold submitBookingForm Page.addEventListener
  rw [getElementById_update, h2]
  · simp [Page.dispatchEvent, Page.listenersOn, Page.update, Page.assignGlobal, he, hfilter,
      Page.runHandler]
  · exact fun _ => rfl

end EnglishBooking
